import Mathlib

/-!
Shallow embedding of the mqtt-relay core (src/relay.rs and
src/services/mqttrelay.rs): the supervisor loop over the active-connection
table, the per-relay worker retry loop, topic subscription, the publish
forwarding task, the ingress publish handler and the MQTT option builder.
-/

/-! ### Global constants (src/relay.rs, src/services/mqttrelay.rs) -/

def RESTART_DELAY_SECS : Nat := 120

def BACKOFF_MAX_RETRIES : Nat := 20

/-- Capacity of each worker's publish channel: `mpsc::channel(32)` in
`start_relay`. -/
def CHANNEL_CAPACITY : Nat := 32

/-! ### Association-list primitives for the id-keyed task table.
The Rust code keys a `HashMap<String, _>`; the list order models the map's
incidental iteration order (`keys().next()` picks the head). -/

def lookupEntry {α : Type} : List (String × α) → String → Option α
  | [], _ => none
  | (k, v) :: rest, key => if k = key then some v else lookupEntry rest key

/-- Model of `HashMap::contains_key`. -/
def hasKey {α : Type} (table : List (String × α)) (key : String) : Bool :=
  (lookupEntry table key).isSome

def tableKeys {α : Type} (table : List (String × α)) : List String :=
  table.map Prod.fst

/-! ### Supervisor tick (src/relay.rs, `start_relay`, lines 110-129).
Each entry of the table is the pair (task handle, publish sender); what the
tick observes of it is the channel capacity carried by the sender, and the
handle's `is_finished()` status, supplied at reap time by the oracle `fin`. -/

structure TaskEntry where
  cap : Nat
deriving DecidableEq, Repr

/-- Entry inserted for a missing relay id: a fresh worker task bound to a
fresh bounded channel of capacity 32. -/
def freshEntry : TaskEntry := ⟨CHANNEL_CAPACITY⟩

/-- The for-loop of the tick: for every relay id of the registry snapshot
not in the table, spawn a worker on a fresh channel and insert its entry. -/
def spawnMissing : List String → List (String × TaskEntry) → List (String × TaskEntry)
  | [], table => table
  | rid :: rest, table =>
    if hasKey table rid then spawnMissing rest table
    else spawnMissing rest (table ++ [(rid, freshEntry)])

/-- The reap step of the tick: `tasks.retain(|_, (task, _)| !task.is_finished())`;
`fin k` is whether the task under id `k` has observably finished. -/
def reapFinished (fin : String → Bool) (table : List (String × TaskEntry)) :
    List (String × TaskEntry) :=
  table.filter (fun e => !(fin e.1))

structure TickResult where
  table : List (String × TaskEntry)
  sleepSecs : Nat
deriving DecidableEq, Repr

/-- One iteration of the supervisor loop: spawn missing workers, reap
finished ones, sleep `RESTART_DELAY_SECS`. -/
def supervisorTick (registry : List String) (fin : String → Bool)
    (table : List (String × TaskEntry)) : TickResult :=
  { table := reapFinished fin (spawnMissing registry table)
    sleepSecs := RESTART_DELAY_SECS }

/-! ### Worker retry loop (src/services/mqttrelay.rs, `run_mqtt_relay_connection`). -/

inductive MqttEvent where
  | connAck
  | publishEv (topic : String) (payload : String)
  | otherEvent
deriving DecidableEq, Repr

inductive ConnError where
  | networkError
  | connectionRefused
deriving DecidableEq, Repr

/-- One `eventloop.poll()`: returns `Ok(())` on any successful poll result
(the ConnAck pattern match inside only prints), `Err` on a poll error. -/
def handle_mqtt_connection (firstPoll : Except ConnError MqttEvent) :
    Except ConnError Unit :=
  match firstPoll with
  | .ok _ => .ok ()
  | .error e => .error e

/-- What one iteration of the worker loop does after the connected phase
ends: `resetTo` is the value of `backoff_retry_attempts` entering the
backoff step (0 if the first poll succeeded), `abortedPublish` records
whether `publish_task.abort()` ran, `backoffArg` the argument passed to
`calculate_backoff` (none when the loop returned instead), `next` the
counter for the next iteration (none = the task returned: Terminated). -/
structure IterResult where
  resetTo : Nat
  abortedPublish : Bool
  backoffArg : Option Nat
  next : Option Nat
deriving DecidableEq, Repr

/-- The `backoff_retry_attempts = 0` assignment guarded by the success of
`handle_mqtt_connection`: the counter entering the backoff step. -/
def resetCounter (retries : Nat) (firstPoll : Except ConnError MqttEvent) : Nat :=
  if (handle_mqtt_connection firstPoll).isOk then 0 else retries

/-- One iteration of the `loop` in `run_mqtt_relay_connection`, given the
current retry counter and the result of the connection's first poll. -/
def workerIter (retries : Nat) (firstPoll : Except ConnError MqttEvent) :
    IterResult :=
  if resetCounter retries firstPoll ≥ BACKOFF_MAX_RETRIES then
    { resetTo := resetCounter retries firstPoll, abortedPublish := false
      backoffArg := none, next := none }
  else
    { resetTo := resetCounter retries firstPoll, abortedPublish := true
      backoffArg := some (resetCounter retries firstPoll)
      next := some (resetCounter retries firstPoll + 1) }

inductive WorkerStatus where
  | running (retries : Nat)
  | terminated
deriving DecidableEq, Repr

/-- The worker loop run over a finite prefix of connection attempts, each
given by its first poll result. Once an iteration returns (Terminated) no
further attempt is consumed. -/
def workerRun (retries : Nat) : List (Except ConnError MqttEvent) → WorkerStatus
  | [] => .running retries
  | p :: ps =>
    match (workerIter retries p).next with
    | none => .terminated
    | some r => workerRun r ps

/-- Number of times the worker enters the Connecting phase along a trace. -/
def connectingCount (retries : Nat) : List (Except ConnError MqttEvent) → Nat
  | [] => 0
  | p :: ps =>
    match (workerIter retries p).next with
    | none => 1
    | some r => 1 + connectingCount r ps

/-! ### Topic subscription (src/services/mqttrelay.rs, `subscribe_to_topics`). -/

inductive QoS where
  | atMostOnce
  | atLeastOnce
  | exactlyOnce
deriving DecidableEq, Repr

inductive ClientError where
  | requestChannelClosed
  | requestChannelFull
deriving DecidableEq, Repr

/-- `subscribe_to_topics`: for each configured topic in order, call
`client.subscribe(topic, QoS::AtMostOnce).await.unwrap()`. `sub t` is the
result of the subscribe call for topic `t`; the `.unwrap()` on an `Err`
panics the worker task, modelled as `none`. On success, returns the list of
subscribe calls issued. -/
def subscribe_to_topics (topics : List String)
    (sub : String → Except ClientError Unit) : Option (List (String × QoS)) :=
  match topics with
  | [] => some []
  | t :: ts =>
    match sub t with
    | .ok _ => (subscribe_to_topics ts sub).map (fun calls => (t, QoS.atMostOnce) :: calls)
    | .error _ => none

/-! ### Publish forwarding task (src/services/mqttrelay.rs, `publish_messages`). -/

structure PublishMessage where
  topic : String
  message : String
  qos : Nat
  retain : Bool
deriving DecidableEq, Repr

/-- One broker publish call as issued by `client.publish(...)`. -/
structure BrokerPublish where
  topic : String
  qos : QoS
  retain : Bool
  payload : String
deriving DecidableEq, Repr

/-- The publish call `publish_messages` makes for one received channel
message: `client.publish(&topic, QoS::AtLeastOnce, retain, message)`. -/
def mkBrokerPublish (m : PublishMessage) : BrokerPublish :=
  { topic := m.topic, qos := QoS.atLeastOnce, retain := m.retain
    payload := m.message }

/-- `publish_messages` over the messages drained from the channel: each is
forwarded to the broker, publish errors are logged and do not stop the loop. -/
def publish_messages (msgs : List PublishMessage) : List BrokerPublish :=
  msgs.map mkBrokerPublish

/-! ### Ingress handler (src/relay.rs, `handle_publish`, lines 155-208). -/

inductive JsonRejection where
  | jsonDataError (detail : String)
  | jsonSyntaxError
  | missingJsonContentType
  | otherRejection
deriving DecidableEq, Repr

/-- Status code and error body produced by the rejection match in
`handle_publish` (the `Err(rejection)` arm). -/
def rejection_response : JsonRejection → Nat × String
  | .jsonDataError detail => (422, "Invalid JSON data: " ++ detail)
  | .jsonSyntaxError => (400, "Syntax error in JSON")
  | .missingJsonContentType =>
    (400, "Missing `Content-Type: application/json` header")
  | .otherRejection => (500, "Unknown error")

structure PublishRequest where
  topic : String
  message : String
  relay_id : Option String
  qos : Nat
  retain : Bool
deriving DecidableEq, Repr

/-- Observable outcome of one `handle_publish` call: HTTP status, body text,
the messages successfully enqueued (relay id paired with the message), and
the relay id the request resolved to. -/
structure PublishOutcome where
  status : Nat
  body : String
  enqueued : List (String × PublishMessage)
  resolved : Option String
deriving DecidableEq, Repr

/-- Message built from the request body in `handle_publish`. -/
def mkPublishMessage (req : PublishRequest) : PublishMessage :=
  { topic := req.topic, message := req.message, qos := req.qos
    retain := req.retain }

/-- Relay-id resolution in `handle_publish`: the explicit id when given,
else `tasks.keys().next()` — the first key in the map's iteration order
(the head of the list). -/
def resolveRelayId (tasks : List (String × Bool)) (req : PublishRequest) :
    Option String :=
  match req.relay_id with
  | none => (tasks.head?).map Prod.fst
  | some r => some r

/-- `handle_publish`: the task table maps each relay id to whether its
channel still accepts sends (`true` = send succeeds, `false` = the worker
terminated and the channel is closed); list order is the map's iteration
order, so `tasks.keys().next()` is the head. -/
def handle_publish (tasks : List (String × Bool))
    (payload : Except JsonRejection PublishRequest) : PublishOutcome :=
  match payload with
  | .error rejection =>
    let sb := rejection_response rejection
    { status := sb.1, body := sb.2, enqueued := [], resolved := none }
  | .ok req =>
    match resolveRelayId tasks req with
    | none => { status := 404, body := "Not Found", enqueued := [], resolved := none }
    | some rid =>
      match lookupEntry tasks rid with
      | some chanOpen =>
        if chanOpen then
          { status := 200, body := "Message published"
            enqueued := [(rid, mkPublishMessage req)], resolved := some rid }
        else
          { status := 500, body := "Internal Server Error", enqueued := []
            resolved := some rid }
      | none =>
        { status := 404, body := "Not Found", enqueued := [], resolved := some rid }

/-! ### MQTT option builder (src/services/mqttrelay.rs,
`initialize_mqtt_options`). RelayConfig fields are as used by the code:
`relay_cfg.config.mqtt.*`. -/

structure MqttSection where
  client_id : Option String
  address : String
  port : Nat
  tls_enabled : Bool
  authentication_certificate_file : Option String
  username : Option String
  password : Option String
  subscribe : List String
deriving DecidableEq, Repr

structure ConfigSection where
  mqtt : MqttSection
deriving DecidableEq, Repr

structure RelayConfig where
  id : String
  config : ConfigSection
deriving DecidableEq, Repr

inductive Transport where
  | tcp
  | tls (ca : String)
deriving DecidableEq, Repr

structure MqttOptions where
  client_id : String
  address : String
  port : Nat
  keep_alive_secs : Nat
  max_incoming_packet_size : Nat
  max_outgoing_packet_size : Nat
  transport : Transport
  credentials : Option (String × String)
deriving DecidableEq, Repr

/-- Options as built by `MqttOptions::new`, `set_keep_alive` and
`set_max_packet_size`: rumqttc's default transport is plain TCP and no
credentials are set. -/
def baseMqttOptions (relay_cfg : RelayConfig) : MqttOptions :=
  { client_id := (relay_cfg.config.mqtt.client_id).getD "tagoio-relay"
    address := relay_cfg.config.mqtt.address
    port := relay_cfg.config.mqtt.port
    keep_alive_secs := 30
    max_incoming_packet_size := 1024 * 1024
    max_outgoing_packet_size := 1024 * 1024
    transport := Transport.tcp
    credentials := none }

/-- The `set_transport` step of `initialize_mqtt_options`: TLS is configured
only when the TLS condition holds and a certificate file is present. -/
def applyTlsTransport (relay_cfg : RelayConfig) (opts : MqttOptions) : MqttOptions :=
  if relay_cfg.config.mqtt.tls_enabled
      || relay_cfg.config.mqtt.address.startsWith "ssl" then
    match relay_cfg.config.mqtt.authentication_certificate_file with
    | some certificate => { opts with transport := Transport.tls certificate }
    | none => opts
  else opts

/-- The `set_credentials` step of `initialize_mqtt_options`: `none` models
the `expect("Password must be provided if username is set")` panic. -/
def applyCredentials (relay_cfg : RelayConfig) (opts : MqttOptions) :
    Option MqttOptions :=
  match relay_cfg.config.mqtt.username with
  | some username =>
    if (relay_cfg.config.mqtt.authentication_certificate_file).isSome then
      match relay_cfg.config.mqtt.password with
      | some password => some { opts with credentials := some (username, password) }
      | none => none
    else some opts
  | none => some opts

/-- `initialize_mqtt_options`: build the base options, then the TLS
transport step, then the credentials step. -/
def initialize_mqtt_options (relay_cfg : RelayConfig) : Option MqttOptions :=
  applyCredentials relay_cfg (applyTlsTransport relay_cfg (baseMqttOptions relay_cfg))

/-! ## Claim theorems -/

/-! ### C2/C4 helper lemmas -/

lemma workerIter_resetTo (r : Nat) (p : Except ConnError MqttEvent) :
    (workerIter r p).resetTo = resetCounter r p := by
  unfold workerIter
  split <;> rfl

lemma workerIter_next_none_of_cap (r : Nat) (p : Except ConnError MqttEvent)
    (h : resetCounter r p ≥ BACKOFF_MAX_RETRIES) : (workerIter r p).next = none := by
  unfold workerIter
  rw [if_pos h]

/-- C2: within one worker task instance, the retry counter is reset to zero
when the first poll of the attempt is a successful connection
acknowledgment, and whenever the backoff step is reached with a counter of
at least 20 the iteration returns (Terminated): the task ends, the rest of
the trace is never consumed, and the Connecting phase is never re-entered. -/
theorem C2_retry_reset_and_cap (r : Nat) (p : Except ConnError MqttEvent) :
    (workerIter r (Except.ok MqttEvent.connAck)).resetTo = 0 ∧
    ((workerIter r p).resetTo ≥ BACKOFF_MAX_RETRIES →
      (workerIter r p).next = none ∧
      (∀ ps, workerRun r (p :: ps) = WorkerStatus.terminated) ∧
      (∀ ps, connectingCount r (p :: ps) = 1)) := by
  refine ⟨rfl, fun h => ?_⟩
  rw [workerIter_resetTo] at h
  have hnext := workerIter_next_none_of_cap r p h
  exact ⟨hnext, fun ps => by simp [workerRun, hnext],
    fun ps => by simp [connectingCount, hnext]⟩

/-- Witness for C2 at concrete inputs: a successful ConnAck poll resets the
counter, and a failed poll at counter 20 terminates the worker without
consuming the rest of the trace. -/
theorem C2_retry_reset_and_cap_witness :
    (workerIter 5 (Except.ok MqttEvent.connAck)).resetTo = 0 ∧
    (workerIter 20 (Except.error ConnError.connectionRefused)).resetTo ≥
      BACKOFF_MAX_RETRIES ∧
    workerRun 20
      [Except.error ConnError.connectionRefused, Except.ok MqttEvent.connAck] =
      WorkerStatus.terminated :=
  ⟨(C2_retry_reset_and_cap 5 (Except.ok MqttEvent.connAck)).1,
   by decide,
   ((C2_retry_reset_and_cap 20 (Except.error ConnError.connectionRefused)).2
      (by decide)).2.1 [Except.ok MqttEvent.connAck]⟩

/-- C4 counterexample: at retry exhaustion (counter 20, failed poll) the
worker transitions out of Connected into Terminated (`next = none`) without
aborting the nested publish task (`abortedPublish = false`), refuting that
every transition out of Connected cancels the publish task. -/
theorem C4_counterexample :
    (workerIter 20 (Except.error ConnError.networkError)).next = none ∧
    (workerIter 20 (Except.error ConnError.networkError)).abortedPublish = false := by
  exact ⟨rfl, rfl⟩

/-- C4 amended: a transition out of Connected aborts the nested publish task
exactly when it goes to BackoffWait (the loop continues); the terminal
return at retry exhaustion ends the task without aborting it. -/
theorem C4_abort_on_backoff_only (r : Nat) (p : Except ConnError MqttEvent) :
    ((workerIter r p).next.isSome → (workerIter r p).abortedPublish = true) ∧
    ((workerIter r p).next = none → (workerIter r p).abortedPublish = false) := by
  unfold workerIter
  split <;> simp

/-- Witness for the amended C4 at concrete inputs: a backoff transition
aborts the publish task, the terminal transition does not. -/
theorem C4_abort_on_backoff_only_witness :
    (workerIter 3 (Except.error ConnError.networkError)).next.isSome = true ∧
    (workerIter 3 (Except.error ConnError.networkError)).abortedPublish = true ∧
    (workerIter 20 (Except.error ConnError.connectionRefused)).next = none ∧
    (workerIter 20 (Except.error ConnError.connectionRefused)).abortedPublish = false :=
  ⟨by decide,
   (C4_abort_on_backoff_only 3 (Except.error ConnError.networkError)).1 (by decide),
   by decide,
   (C4_abort_on_backoff_only 20 (Except.error ConnError.connectionRefused)).2 (by decide)⟩

/-- C3 counterexample: with one configured topic whose subscribe call
returns an error, `subscribe_to_topics` hits the `.unwrap()` and panics
(modelled `none`): the worker does not proceed to Connected, so a per-topic
subscribe failure is neither logged nor ignored. -/
theorem C3_counterexample :
    subscribe_to_topics ["device/data"]
      (fun _ => Except.error ClientError.requestChannelClosed) = none := rfl

/-- C3 amended: every configured topic is subscribed with QoS AtMostOnce,
and the worker proceeds past the Subscribing phase exactly when every
subscribe call succeeds; any per-topic subscribe call failure panics the
worker task (the `.unwrap()`), it is not logged and ignored. -/
theorem C3_subscribe_all_or_panic (topics : List String)
    (sub : String → Except ClientError Unit) :
    ((∀ t ∈ topics, sub t = Except.ok ()) →
      subscribe_to_topics topics sub =
        some (topics.map (fun t => (t, QoS.atMostOnce)))) ∧
    ((∃ t ∈ topics, sub t ≠ Except.ok ()) →
      subscribe_to_topics topics sub = none) := by
  induction topics with
  | nil => exact ⟨fun _ => rfl, by simp⟩
  | cons t ts ih =>
    constructor
    · intro h
      have ht := h t (List.mem_cons_self t ts)
      have hrest := ih.1 (fun x hx => h x (List.mem_cons_of_mem t hx))
      simp [subscribe_to_topics, ht, hrest]
    · rintro ⟨x, hx, hne⟩
      rcases List.mem_cons.mp hx with rfl | hx2
      · cases hsub : sub x with
        | ok u => cases u; exact absurd hsub hne
        | error e => simp [subscribe_to_topics, hsub]
      · cases hsub : sub t with
        | ok u =>
          cases u
          have hrest := ih.2 ⟨x, hx2, hne⟩
          simp [subscribe_to_topics, hsub, hrest]
        | error e => simp [subscribe_to_topics, hsub]

/-- Witness for the amended C3 at concrete inputs: two topics whose
subscribe calls succeed are both subscribed AtMostOnce, and one failing
topic makes the phase panic. -/
theorem C3_subscribe_all_or_panic_witness :
    (∀ t ∈ ["tago/a", "tago/b"],
      (fun _ : String => (Except.ok () : Except ClientError Unit)) t = Except.ok ()) ∧
    subscribe_to_topics ["tago/a", "tago/b"]
        (fun _ : String => (Except.ok () : Except ClientError Unit)) =
      some [("tago/a", QoS.atMostOnce), ("tago/b", QoS.atMostOnce)] ∧
    (∃ t ∈ ["tago/c"],
      (fun _ : String =>
        (Except.error ClientError.requestChannelFull : Except ClientError Unit)) t ≠
        Except.ok ()) ∧
    subscribe_to_topics ["tago/c"]
      (fun _ : String =>
        (Except.error ClientError.requestChannelFull : Except ClientError Unit)) = none :=
  ⟨fun t _ => rfl,
   (C3_subscribe_all_or_panic ["tago/a", "tago/b"] _).1 (fun t _ => rfl),
   ⟨"tago/c", by simp⟩,
   (C3_subscribe_all_or_panic ["tago/c"] _).2 ⟨"tago/c", by simp⟩⟩

/-- C6 counterexample: a missing JSON content type is mapped to status 400,
the very status of a JSON syntax error, so it does not get its own distinct
status code. -/
theorem C6_counterexample :
    (rejection_response JsonRejection.missingJsonContentType).1 = 400 ∧
    (rejection_response JsonRejection.jsonSyntaxError).1 = 400 :=
  ⟨rfl, rfl⟩

/-- C6 amended: a JSON syntax error yields 400 with a syntax-error body, a
structurally valid but semantically invalid body yields 422, and a missing
JSON content type yields 400 as well — the same status as a syntax error,
distinguished only by its error body; every rejection maps to one of the
statuses 400, 422, 500, never a crash. -/
theorem C6_rejection_mapping :
    rejection_response JsonRejection.jsonSyntaxError = (400, "Syntax error in JSON") ∧
    (∀ d : String, rejection_response (JsonRejection.jsonDataError d) =
      (422, "Invalid JSON data: " ++ d)) ∧
    rejection_response JsonRejection.missingJsonContentType =
      (400, "Missing `Content-Type: application/json` header") ∧
    (rejection_response JsonRejection.missingJsonContentType).2 ≠
      (rejection_response JsonRejection.jsonSyntaxError).2 ∧
    (∀ r : JsonRejection, (rejection_response r).1 = 400 ∨
      (rejection_response r).1 = 422 ∨ (rejection_response r).1 = 500) := by
  refine ⟨rfl, fun d => rfl, rfl, by decide, ?_⟩
  intro r
  cases r <;> simp [rejection_response]

/-! ### C5/C7/C8 helper lemmas -/

lemma handle_publish_resolved (tasks : List (String × Bool)) (req : PublishRequest) :
    (handle_publish tasks (Except.ok req)).resolved = resolveRelayId tasks req := by
  cases hr : resolveRelayId tasks req with
  | none => simp [handle_publish, hr]
  | some rid =>
    cases hl : lookupEntry tasks rid with
    | none => simp [handle_publish, hr, hl]
    | some b => cases b <;> simp [handle_publish, hr, hl]

/-- C5: routing of one ingress publish request. With an empty table and no
explicit relay id the handler returns 404 and enqueues nothing; with an
explicit id that has no active entry it returns 404; when the resolved id
has an active entry whose channel accepts the send, exactly one message is
enqueued on that relay's channel and 200 is returned; when the resolved
entry's channel is closed, the failed enqueue is reported as 500. -/
theorem C5_ingress_routing (tasks : List (String × Bool)) (req : PublishRequest) :
    (tasks = [] → req.relay_id = none →
      (handle_publish tasks (Except.ok req)).status = 404 ∧
      (handle_publish tasks (Except.ok req)).enqueued = []) ∧
    (∀ x, req.relay_id = some x → lookupEntry tasks x = none →
      (handle_publish tasks (Except.ok req)).status = 404 ∧
      (handle_publish tasks (Except.ok req)).enqueued = []) ∧
    (∀ rid, (handle_publish tasks (Except.ok req)).resolved = some rid →
      lookupEntry tasks rid = some true →
      (handle_publish tasks (Except.ok req)).status = 200 ∧
      (handle_publish tasks (Except.ok req)).enqueued = [(rid, mkPublishMessage req)]) ∧
    (∀ rid, (handle_publish tasks (Except.ok req)).resolved = some rid →
      lookupEntry tasks rid = some false →
      (handle_publish tasks (Except.ok req)).status = 500 ∧
      (handle_publish tasks (Except.ok req)).enqueued = []) := by
  refine ⟨?_, ?_, ?_, ?_⟩
  · intro h1 h2
    subst h1
    simp [handle_publish, resolveRelayId, h2]
  · intro x hx hlook
    simp [handle_publish, resolveRelayId, hx, hlook]
  · intro rid hr hlook
    rw [handle_publish_resolved] at hr
    simp [handle_publish, hr, hlook]
  · intro rid hr hlook
    rw [handle_publish_resolved] at hr
    simp [handle_publish, hr, hlook]

/-- Witness for C5 at concrete inputs covering the four routing outcomes:
empty table, unknown explicit id, open channel, closed channel. -/
theorem C5_ingress_routing_witness :
    ((handle_publish []
        (Except.ok { topic := "t", message := "m", relay_id := none, qos := 1,
                     retain := false })).status = 404) ∧
    ((handle_publish [("a", true)]
        (Except.ok { topic := "t", message := "m", relay_id := some "b", qos := 1,
                     retain := false })).status = 404) ∧
    ((handle_publish [("a", true)]
        (Except.ok { topic := "t", message := "m", relay_id := some "a", qos := 1,
                     retain := false })).status = 200 ∧
     (handle_publish [("a", true)]
        (Except.ok { topic := "t", message := "m", relay_id := some "a", qos := 1,
                     retain := false })).enqueued =
       [("a", { topic := "t", message := "m", qos := 1, retain := false })]) ∧
    ((handle_publish [("a", false)]
        (Except.ok { topic := "t", message := "m", relay_id := some "a", qos := 1,
                     retain := false })).status = 500) :=
  ⟨((C5_ingress_routing []
      { topic := "t", message := "m", relay_id := none, qos := 1,
        retain := false }).1 rfl rfl).1,
   ((C5_ingress_routing [("a", true)]
      { topic := "t", message := "m", relay_id := some "b", qos := 1,
        retain := false }).2.1 "b" rfl rfl).1,
   (C5_ingress_routing [("a", true)]
      { topic := "t", message := "m", relay_id := some "a", qos := 1,
        retain := false }).2.2.1 "a" rfl rfl,
   ((C5_ingress_routing [("a", false)]
      { topic := "t", message := "m", relay_id := some "a", qos := 1,
        retain := false }).2.2.2 "a" rfl rfl).1⟩

/-- C7 counterexample: two tables holding the same entries (a permutation,
i.e. the same map contents in a different incidental iteration order)
resolve a request with no relay id to different relay ids: the default
selection depends on container iteration order, not on a content-determined
rule. -/
theorem C7_counterexample :
    List.Perm [("alpha", true), ("beta", true)] [("beta", true), ("alpha", true)] ∧
    (handle_publish [("alpha", true), ("beta", true)]
      (Except.ok { topic := "t", message := "m", relay_id := none, qos := 0,
                   retain := false })).resolved = some "alpha" ∧
    (handle_publish [("beta", true), ("alpha", true)]
      (Except.ok { topic := "t", message := "m", relay_id := none, qos := 0,
                   retain := false })).resolved = some "beta" := by
  refine ⟨?_, rfl, rfl⟩
  decide

/-- C7 amended: when relay_id is omitted the handler resolves to the first
key in the table's incidental iteration order (`keys().next()`): the
selection is a pure function of the table instance, but it is iteration-
order dependent, not a content-determined documented rule. -/
theorem C7_default_selection (tasks : List (String × Bool)) (req : PublishRequest)
    (h : req.relay_id = none) :
    (handle_publish tasks (Except.ok req)).resolved = (tasks.head?).map Prod.fst := by
  rw [handle_publish_resolved]
  simp [resolveRelayId, h]

/-- Witness for the amended C7 at a concrete input: the head key of the
iteration order is the resolved id. -/
theorem C7_default_selection_witness :
    (handle_publish [("relayB", true), ("relayA", true)]
      (Except.ok { topic := "x", message := "y", relay_id := none, qos := 0,
                   retain := true })).resolved = some "relayB" :=
  (C7_default_selection [("relayB", true), ("relayA", true)] _ rfl).trans rfl

/-- C8: the qos field of an ingress request never influences the broker
publish: any byte value (here 200) deserializes and routes with 200, it is
never rejected with 422, and every broker publish issued by the forwarding
task carries QoS AtLeastOnce whatever qos the channel message carried. -/
theorem C8_qos_ignored (q : Nat) (hq : q ≤ 255) (topic msg : String) (retain : Bool)
    (msgs : List PublishMessage) :
    ((handle_publish [("relay1", true)]
        (Except.ok { topic := topic, message := msg, relay_id := none, qos := q,
                     retain := retain })).status = 200 ∧
     (handle_publish [("relay1", true)]
        (Except.ok { topic := topic, message := msg, relay_id := none, qos := q,
                     retain := retain })).enqueued =
       [("relay1", { topic := topic, message := msg, qos := q, retain := retain })] ∧
     (handle_publish [("relay1", true)]
        (Except.ok { topic := topic, message := msg, relay_id := none, qos := q,
                     retain := retain })).status ≠ 422) ∧
    (∀ b ∈ publish_messages msgs, b.qos = QoS.atLeastOnce) ∧
    (∀ m : PublishMessage, ∀ q1 q2 : Nat,
      mkBrokerPublish { m with qos := q1 } = mkBrokerPublish { m with qos := q2 }) := by
  refine ⟨⟨rfl, rfl, (by decide : (200 : Nat) ≠ 422)⟩, ?_, fun m q1 q2 => rfl⟩
  intro b hb
  rcases List.mem_map.mp hb with ⟨m, _, rfl⟩
  rfl

/-- Witness for C8 at concrete inputs: qos 200 (outside 0..2) routes with
status 200, and a message enqueued with qos 200 is published AtLeastOnce. -/
theorem C8_qos_ignored_witness :
    (200 : Nat) ≤ 255 ∧
    (handle_publish [("relay1", true)]
        (Except.ok { topic := "t", message := "m", relay_id := none, qos := 200,
                     retain := false })).status = 200 ∧
    publish_messages [{ topic := "t", message := "m", qos := 200, retain := false }] =
      [{ topic := "t", qos := QoS.atLeastOnce, retain := false, payload := "m" }] :=
  ⟨by decide,
   (C8_qos_ignored 200 (by decide) "t" "m" false []).1.1,
   rfl⟩

/-! ### C9/C10 helper lemmas and sample configurations -/

lemma applyTlsTransport_credentials (cfg : RelayConfig) (opts : MqttOptions) :
    (applyTlsTransport cfg opts).credentials = opts.credentials := by
  unfold applyTlsTransport
  split
  · split <;> rfl
  · rfl

lemma applyTlsTransport_eq_of_no_cert (cfg : RelayConfig) (opts : MqttOptions)
    (hc : cfg.config.mqtt.authentication_certificate_file = none) :
    applyTlsTransport cfg opts = opts := by
  unfold applyTlsTransport
  rw [hc]
  split <;> rfl

lemma applyCredentials_no_cert (cfg : RelayConfig)
    (hc : cfg.config.mqtt.authentication_certificate_file = none)
    (opts : MqttOptions) : applyCredentials cfg opts = some opts := by
  unfold applyCredentials
  rcases hu : cfg.config.mqtt.username with _ | u <;> simp [hu, hc]

/-- Sample config: username and certificate present, password absent. -/
def sampleCfgUserCertNoPass : RelayConfig :=
  { id := "r1"
    config := { mqtt :=
      { client_id := some "cid", address := "broker.example", port := 8883
        tls_enabled := true, authentication_certificate_file := some "CERTPEM"
        username := some "user", password := none, subscribe := ["tago/sub"] } } }

/-- Sample config: no certificate file, username and password present. -/
def sampleCfgNoCert : RelayConfig :=
  { id := "r2"
    config := { mqtt :=
      { client_id := some "cid", address := "broker.example", port := 1883
        tls_enabled := false, authentication_certificate_file := none
        username := some "user", password := some "pw", subscribe := [] } } }

/-- Sample config: TLS enabled but no certificate file. -/
def sampleCfgTlsNoCert : RelayConfig :=
  { id := "r3"
    config := { mqtt :=
      { client_id := none, address := "ssl://broker.example", port := 8883
        tls_enabled := true, authentication_certificate_file := none
        username := none, password := none, subscribe := [] } } }

/-- C9: building the MQTT options panics (the `expect`) exactly under a
configured username and certificate file with no password; and with no
certificate file a configured username/password pair is silently not
applied: the built options carry no credentials. -/
theorem C9_credentials_precondition (cfg : RelayConfig) :
    ((cfg.config.mqtt.username).isSome →
      (cfg.config.mqtt.authentication_certificate_file).isSome →
      cfg.config.mqtt.password = none →
      initialize_mqtt_options cfg = none) ∧
    (cfg.config.mqtt.authentication_certificate_file = none →
      ∀ opts, initialize_mqtt_options cfg = some opts → opts.credentials = none) := by
  constructor
  · intro hu hc hp
    rcases Option.isSome_iff_exists.mp hu with ⟨u, hu2⟩
    rw [initialize_mqtt_options]
    unfold applyCredentials
    simp [hu2, hc, hp]
  · intro hc opts hopts
    rw [initialize_mqtt_options, applyCredentials_no_cert cfg hc] at hopts
    injection hopts with h2
    subst h2
    rw [applyTlsTransport_credentials]
    rfl

/-- Witness for C9 at concrete configs: the username+certificate+no-password
config panics, and the no-certificate config yields options without
credentials despite its username/password pair. -/
theorem C9_credentials_precondition_witness :
    initialize_mqtt_options sampleCfgUserCertNoPass = none ∧
    (initialize_mqtt_options sampleCfgNoCert).map MqttOptions.credentials =
      some none :=
  ⟨(C9_credentials_precondition sampleCfgUserCertNoPass).1 (by decide) (by decide) rfl,
   by
    have h2 := (C9_credentials_precondition sampleCfgNoCert).2 rfl
    cases hx : initialize_mqtt_options sampleCfgNoCert with
    | none => exact absurd hx (by decide)
    | some o => simp [h2 o hx]⟩

/-- C10: with a TLS-requesting config (tls_enabled, or an address starting
with "ssl") but no certificate file, the transport set-up is skipped, so the
built options keep the default plain-TCP transport. -/
theorem C10_tls_requires_certificate (cfg : RelayConfig)
    (h : cfg.config.mqtt.tls_enabled = true ∨
      (cfg.config.mqtt.address).startsWith "ssl" = true)
    (hc : cfg.config.mqtt.authentication_certificate_file = none) :
    ∀ opts, initialize_mqtt_options cfg = some opts →
      opts.transport = Transport.tcp := by
  intro opts hopts
  rw [initialize_mqtt_options,
    applyTlsTransport_eq_of_no_cert cfg (baseMqttOptions cfg) hc,
    applyCredentials_no_cert cfg hc] at hopts
  injection hopts with h2
  subst h2
  rfl

/-- Witness for C10 at a concrete config: TLS enabled and an ssl address
with no certificate file still yields the plain TCP transport. -/
theorem C10_tls_requires_certificate_witness :
    sampleCfgTlsNoCert.config.mqtt.tls_enabled = true ∧
    sampleCfgTlsNoCert.config.mqtt.authentication_certificate_file = none ∧
    (initialize_mqtt_options sampleCfgTlsNoCert).map MqttOptions.transport =
      some Transport.tcp := by
  refine ⟨rfl, rfl, ?_⟩
  have h := C10_tls_requires_certificate sampleCfgTlsNoCert (Or.inl rfl) rfl
  cases hx : initialize_mqtt_options sampleCfgTlsNoCert with
  | none => exact absurd hx (by decide)
  | some o => simp [h o hx]

/-! ### C1 helper lemmas -/

lemma lookupEntry_append_of_some {α : Type} (t l : List (String × α)) (k : String)
    (v : α) (h : lookupEntry t k = some v) : lookupEntry (t ++ l) k = some v := by
  induction t with
  | nil => exact absurd h (by simp [lookupEntry])
  | cons e rest ih =>
    obtain ⟨a, b⟩ := e
    by_cases hak : a = k
    · simpa [lookupEntry, hak] using h
    · simp [lookupEntry, hak] at h ⊢
      exact ih h

lemma lookupEntry_append_of_none {α : Type} (t l : List (String × α)) (k : String)
    (h : lookupEntry t k = none) : lookupEntry (t ++ l) k = lookupEntry l k := by
  induction t with
  | nil => rfl
  | cons e rest ih =>
    obtain ⟨a, b⟩ := e
    by_cases hak : a = k
    · simp [lookupEntry, hak] at h
    · simp [lookupEntry, hak] at h ⊢
      exact ih h

lemma lookupEntry_eq_none_iff {α : Type} (t : List (String × α)) (k : String) :
    lookupEntry t k = none ↔ k ∉ tableKeys t := by
  induction t with
  | nil => simp [lookupEntry, tableKeys]
  | cons e rest ih =>
    obtain ⟨a, b⟩ := e
    by_cases hak : a = k
    · subst hak
      simp [lookupEntry, tableKeys]
    · simp [lookupEntry, tableKeys, hak, ih]
      exact fun _ => fun habs => hak habs.symm

lemma hasKey_false_iff {α : Type} (t : List (String × α)) (k : String) :
    hasKey t k = false ↔ lookupEntry t k = none := by
  unfold hasKey
  cases lookupEntry t k <;> simp

lemma spawnMissing_lookup_of_some (reg : List String) (k : String) (v : TaskEntry) :
    ∀ t : List (String × TaskEntry), lookupEntry t k = some v →
      lookupEntry (spawnMissing reg t) k = some v := by
  induction reg with
  | nil => exact fun t h => h
  | cons rid rest ih =>
    intro t h
    cases hkey : hasKey t rid with
    | true =>
      simp [spawnMissing, hkey]
      exact ih t h
    | false =>
      simp [spawnMissing, hkey]
      exact ih _ (lookupEntry_append_of_some t _ k v h)

lemma spawnMissing_lookup_of_missing (reg : List String) (k : String) :
    ∀ t : List (String × TaskEntry), k ∈ reg → lookupEntry t k = none →
      lookupEntry (spawnMissing reg t) k = some freshEntry := by
  induction reg with
  | nil => intro t hk _; cases hk
  | cons rid rest ih =>
    intro t hk h
    rcases List.mem_cons.mp hk with rfl | hk2
    · have hkt : hasKey t k = false := (hasKey_false_iff t k).mpr h
      have hlook : lookupEntry (t ++ [(k, freshEntry)]) k = some freshEntry := by
        rw [lookupEntry_append_of_none t _ k h]
        simp [lookupEntry]
      simp [spawnMissing, hkt]
      exact spawnMissing_lookup_of_some rest k freshEntry _ hlook
    · cases hkey : hasKey t rid with
      | true =>
        simp [spawnMissing, hkey]
        exact ih t hk2 h
      | false =>
        by_cases hrk : rid = k
        · subst hrk
          have hlook : lookupEntry (t ++ [(rid, freshEntry)]) rid = some freshEntry := by
            rw [lookupEntry_append_of_none t _ rid h]
            simp [lookupEntry]
          simp [spawnMissing, hkey]
          exact spawnMissing_lookup_of_some rest rid freshEntry _ hlook
        · have hlook : lookupEntry (t ++ [(rid, freshEntry)]) k = none := by
            rw [lookupEntry_append_of_none t _ k h]
            simp [lookupEntry, hrk]
          simp [spawnMissing, hkey]
          exact ih _ hk2 hlook

lemma spawnMissing_nodup (reg : List String) :
    ∀ t : List (String × TaskEntry), (tableKeys t).Nodup →
      (tableKeys (spawnMissing reg t)).Nodup := by
  induction reg with
  | nil => exact fun t h => h
  | cons rid rest ih =>
    intro t h
    cases hkey : hasKey t rid with
    | true =>
      simp [spawnMissing, hkey]
      exact ih t h
    | false =>
      have hnin : rid ∉ tableKeys t :=
        (lookupEntry_eq_none_iff t rid).mp ((hasKey_false_iff t rid).mp hkey)
      simp [spawnMissing, hkey]
      apply ih
      have hkeys : tableKeys (t ++ [(rid, freshEntry)]) = tableKeys t ++ [rid] := by
        simp [tableKeys]
      rw [hkeys, List.nodup_append]
      refine ⟨h, List.nodup_singleton rid, ?_⟩
      intro a ha hb
      rw [List.mem_singleton] at hb
      subst hb
      exact hnin ha

lemma reapFinished_nodup (fin : String → Bool) (t : List (String × TaskEntry))
    (h : (tableKeys t).Nodup) : (tableKeys (reapFinished fin t)).Nodup := by
  have hsub : List.Sublist (tableKeys (reapFinished fin t)) (tableKeys t) :=
    (List.filter_sublist t).map Prod.fst
  exact h.sublist hsub

lemma mem_reapFinished_iff (fin : String → Bool) (t : List (String × TaskEntry))
    (e : String × TaskEntry) : e ∈ reapFinished fin t ↔ e ∈ t ∧ fin e.1 = false := by
  simp [reapFinished, List.mem_filter]

/-- C1: one supervisor tick keeps the table invariant. Given a table with at
most one entry per relay id, the ticked table again has no duplicate relay
ids; every registry id lacking a table entry gets a fresh entry — a new
worker on a fresh bounded channel of capacity 32 — inserted under that id;
the reap step removes exactly the entries whose task has observably
finished: the ticked table holds precisely the post-insert entries whose
task has not finished, so every finished entry is removed and every
unfinished entry survives; and the tick sleeps 120 seconds. -/
theorem C1_supervisor_tick_invariant (registry : List String)
    (fin : String → Bool) (table : List (String × TaskEntry))
    (hnd : (tableKeys table).Nodup) :
    (tableKeys (supervisorTick registry fin table).table).Nodup ∧
    (∀ rid ∈ registry, lookupEntry table rid = none →
      lookupEntry (spawnMissing registry table) rid = some freshEntry ∧
      freshEntry.cap = 32) ∧
    (∀ e, e ∈ (supervisorTick registry fin table).table ↔
      e ∈ spawnMissing registry table ∧ fin e.1 = false) ∧
    (∀ e ∈ spawnMissing registry table, fin e.1 = true →
      e ∉ (supervisorTick registry fin table).table) ∧
    (supervisorTick registry fin table).sleepSecs = 120 := by
  refine ⟨?_, ?_, ?_, ?_, rfl⟩
  · exact reapFinished_nodup fin _ (spawnMissing_nodup registry table hnd)
  · intro rid hr h
    exact ⟨spawnMissing_lookup_of_missing registry rid table hr h, rfl⟩
  · exact fun e => mem_reapFinished_iff fin _ e
  · intro e _ hfin hmem
    have hsurv := ((mem_reapFinished_iff fin _ e).mp hmem).2
    rw [hfin] at hsurv
    exact Bool.noConfusion hsurv

/-- Witness for C1 at a concrete tick: table holding relay "r0", registry
adding "r1", and the task of "r0" finished. The missing id "r1" is spawned
with a fresh capacity-32 entry, the finished "r0" entry is removed by the
reap step, the ticked table has no duplicate ids, and the tick sleeps 120
seconds. -/
theorem C1_supervisor_tick_invariant_witness :
    (tableKeys (supervisorTick ["r1", "r0"] (fun k => k == "r0")
      [("r0", ⟨32⟩)]).table).Nodup ∧
    lookupEntry (spawnMissing ["r1", "r0"] [("r0", (⟨32⟩ : TaskEntry))]) "r1" =
      some freshEntry ∧
    ("r0", (⟨32⟩ : TaskEntry)) ∈ spawnMissing ["r1", "r0"] [("r0", ⟨32⟩)] ∧
    ("r0", (⟨32⟩ : TaskEntry)) ∉ (supervisorTick ["r1", "r0"] (fun k => k == "r0")
      [("r0", ⟨32⟩)]).table ∧
    (supervisorTick ["r1", "r0"] (fun k => k == "r0")
      [("r0", ⟨32⟩)]).table = [("r1", freshEntry)] ∧
    (supervisorTick ["r1", "r0"] (fun k => k == "r0")
      [("r0", ⟨32⟩)]).sleepSecs = 120 := by
  have h := C1_supervisor_tick_invariant ["r1", "r0"] (fun k => k == "r0")
    [("r0", ⟨32⟩)] (by decide)
  exact ⟨h.1, (h.2.1 "r1" (by decide) (by decide)).1, by decide,
    h.2.2.2.1 ("r0", ⟨32⟩) (by decide) (by decide), by decide, h.2.2.2.2⟩
